import Mathlib

/-!
Verification of the ObjectBox C++ binding (objectbox.hpp): the typed
query-condition algebra (QueryCondition / QCGroup / QC leaf classes), the
Transaction RAII wrapper, and the QueryBuilder / Query execution binding.

The native engine (obx_* functions) is an external collaborator; we model it
as an oracle whose answers are passed in as parameters, and we record every
engine primitive the binding invokes in an explicit call trace. Each
definition below is a direct transcription of the corresponding C++ source,
with the source location noted in its doc comment.
-/

namespace Obx

/-! ## Query operators and leaf condition containers -/

/-- Transcribes enum class QueryOp (objectbox.hpp lines 1274-1290). -/
inductive QueryOp where
  | Equal
  | NotEqual
  | Less
  | LessOrEq
  | Greater
  | GreaterOrEq
  | Contains
  | StartsWith
  | EndsWith
  | Between
  | In
  | NotIn
  | Null
  | NotNull
  | NearestNeighbors
deriving DecidableEq, Repr, Fintype

/-- The concrete QueryCondition leaf container classes of objectbox.hpp:
base QC (lines 1295-1326), QCInt64 (1328), QCDouble (1359), QCInt32Array
(1386), QCInt64Array (1406), QCString for String and for StringVector
(1426-1469), QCStringArray (1471), QCBytes (1496), QCVectorF32 (1525). -/
inductive LeafKind where
  | qcPlain
  | qcInt64
  | qcDouble
  | qcInt32Array
  | qcInt64Array
  | qcStringForString
  | qcStringForStringVector
  | qcStringArray
  | qcBytes
  | qcVectorF32
deriving DecidableEq, Repr, Fintype

/-- Transcribes the applyTo dispatch of each leaf container class: true iff
the (container, operator) pair has a native primitive branch, false iff the
code falls through to throwInvalidOperation (the backstop of lines
1313-1316). Each line lists exactly the operators of the if-chain of the
corresponding applyTo override in the source. -/
def leafSupported : LeafKind → QueryOp → Bool
  | .qcPlain, op => op == .Null || op == .NotNull
  | .qcInt64, op =>
      op == .Equal || op == .NotEqual || op == .Less || op == .LessOrEq ||
      op == .Greater || op == .GreaterOrEq || op == .Between
  | .qcDouble, op =>
      op == .Less || op == .LessOrEq || op == .Greater || op == .GreaterOrEq ||
      op == .Between
  | .qcInt32Array, op => op == .In || op == .NotIn
  | .qcInt64Array, op => op == .In || op == .NotIn
  | .qcStringForString, op =>
      op == .Equal || op == .NotEqual || op == .Less || op == .LessOrEq ||
      op == .Greater || op == .GreaterOrEq || op == .StartsWith ||
      op == .EndsWith || op == .Contains
  | .qcStringForStringVector, op => op == .Contains
  | .qcStringArray, op => op == .In
  | .qcBytes, op =>
      op == .Equal || op == .Less || op == .LessOrEq || op == .Greater ||
      op == .GreaterOrEq
  | .qcVectorF32, op => op == .NearestNeighbors

/-- Transcribes the public typed condition factories: which (container,
operator) pairs the factory methods can construct. Sources: PropertyTypeless
isNull/isNotNull (lines 1584-1585); the generic Property for bool, integer,
relation and floating types (1594-1708); the String specialization
(1713-1795); the ByteVector specialization (1800-1834); the StringVector
specialization (1839-1850); the FloatVector specialization (1854-1876). -/
def factoryProducible : LeafKind → QueryOp → Bool
  | .qcPlain, op => op == .Null || op == .NotNull
  | .qcInt64, op =>
      op == .Equal || op == .NotEqual || op == .Less || op == .LessOrEq ||
      op == .Greater || op == .GreaterOrEq || op == .Between
  | .qcDouble, op =>
      op == .Less || op == .LessOrEq || op == .Greater || op == .GreaterOrEq ||
      op == .Between
  | .qcInt32Array, op => op == .In || op == .NotIn
  | .qcInt64Array, op => op == .In || op == .NotIn
  | .qcStringForString, op =>
      op == .Equal || op == .NotEqual || op == .Less || op == .LessOrEq ||
      op == .Greater || op == .GreaterOrEq || op == .Contains ||
      op == .StartsWith || op == .EndsWith
  | .qcStringForStringVector, op => op == .Contains
  | .qcStringArray, op => op == .In
  | .qcBytes, op =>
      op == .Equal || op == .Less || op == .LessOrEq || op == .Greater ||
      op == .GreaterOrEq
  | .qcVectorF32, op => op == .NearestNeighbors

/-! ## Condition trees -/

mutual

/-- A condition tree: a leaf is one of the concrete QC container objects
(identified by its container class and stored operator); a group is QCGroup
(objectbox.hpp line 1191) with its isOr flag and ordered children list. -/
inductive Cond where
  | leaf : LeafKind → QueryOp → Cond
  | group : Bool → CondList → Cond

/-- The children vector of a QCGroup; a mutual inductive (rather than a
nested List) keeps all recursion over trees structural. -/
inductive CondList where
  | nil : CondList
  | cons : Cond → CondList → CondList

end

/-- Appends one condition at the end of a children list; models
std::vector push_back on conditions_. -/
def CondList.push : CondList → Cond → CondList
  | .nil, c => .cons c .nil
  | .cons a rest, c => .cons a (rest.push c)

/-- Number of children; models conditions_.size(). -/
def CondList.length : CondList → Nat
  | .nil => 0
  | .cons _ rest => 1 + rest.length

/-- Two-element children list, as built by the QCGroup constructor
(objectbox.hpp lines 1199-1200). -/
def CondList.pair (a b : Cond) : CondList := .cons a (.cons b .nil)

/-! ## Combining conditions: and_/or_ (copying path) -/

/-- Transcribes QueryCondition::and_ (line 1266): a new AND group whose two
children are copies of the left and right operands, and QCGroup::and_
(lines 1203-1209): an OR group also wraps (delegating to the base), while an
AND group extends a copy of itself with a copy of the right operand via
copyThisAndPush (lines 1241-1245). Copies are value copies, identities in
this tree model. -/
def condAnd : Cond → Cond → Cond
  | .group false cs, r => .group false (cs.push r)
  | l, r => .group false (.pair l r)

/-- Transcribes QueryCondition::or_ (line 1271) and QCGroup::or_
(lines 1220-1226), symmetric to condAnd. -/
def condOr : Cond → Cond → Cond
  | .group true cs, r => .group true (cs.push r)
  | l, r => .group true (.pair l r)

/-- True exactly for a QCGroup object whose isOr flag is false, i.e. the
left-operand shape on which QCGroup::and_ extends instead of wrapping. -/
def isAndGroup : Cond → Bool
  | .group false _ => true
  | _ => false

/-- True exactly for a QCGroup object whose isOr flag is true. -/
def isOrGroup : Cond → Bool
  | .group true _ => true
  | _ => false

/-! ## Combining conditions: rvalue move-optimized path -/

/-- Transcribes the friend operator&& for an rvalue QCGroup left operand
(lines 1213-1217): an OR group delegates to and_, an AND group pushes a copy
of the right operand into its own children in place. The left group is given
by its fields (isOr flag and children). -/
def moveAnd (isOr : Bool) (cs : CondList) (r : Cond) : Cond :=
  if isOr then condAnd (.group true cs) r
  else .group false (cs.push r)

/-- Transcribes the friend operator OR for an rvalue QCGroup left operand
(lines 1230-1234), symmetric to moveAnd. -/
def moveOr (isOr : Bool) (cs : CondList) (r : Cond) : Cond :=
  if !isOr then condOr (.group false cs) r
  else .group true (cs.push r)

/-- Which combinator a chain step uses. -/
inductive CombOp where
  | andC
  | orC
deriving DecidableEq, Repr

/-- One step of a left-to-right combine chain on the copying path:
QueryCondition::operator&& / operator OR (lines 1269, 1272), which call
the virtual and_/or_. -/
def stepCopy (acc : Cond) : CombOp × Cond → Cond
  | (.andC, c) => condAnd acc c
  | (.orC, c) => condOr acc c

/-- One step of a left-to-right combine chain as C++ overload resolution
actually picks the operators: when the accumulated left operand is a group
prvalue, the rvalue friend operators (move path) apply; a non-group left
operand uses the member operators (copy path). -/
def stepMove (acc : Cond) (pc : CombOp × Cond) : Cond :=
  match acc with
  | .group isOr cs =>
      match pc with
      | (.andC, c) => moveAnd isOr cs c
      | (.orC, c) => moveOr isOr cs c
  | l => stepCopy l pc

/-- Folds a whole chain first op1 c1 op2 c2 ... with the copying path. -/
def chainCopy (first : Cond) (rest : List (CombOp × Cond)) : Cond :=
  rest.foldl stepCopy first

/-- Folds a whole chain with the move-optimized path wherever it applies. -/
def chainMove (first : Cond) (rest : List (CombOp × Cond)) : Cond :=
  rest.foldl stepMove first

/-! ## Lowering a condition tree onto the native query builder -/

/-- Engine primitives invoked while lowering a condition tree onto an
OBX_query_builder: one leaf primitive per (container, operator) pair
(obx_qb_equals_int and friends), plus the combinators obx_qb_any and
obx_qb_all over previously returned condition handles. -/
inductive NativeCall where
  | condLeaf : LeafKind → QueryOp → NativeCall
  | anyCall : List Nat → NativeCall
  | allCall : List Nat → NativeCall
deriving DecidableEq, Repr

mutual

/-- Transcribes QueryCondition::applyTo. State is the fresh-handle counter of
the native builder; the engine returns handle n+1 for the n-th primitive
call (native handles are nonzero, so the literal zero return of the root-AND
branch stays distinguishable). Returns none where the C++ throws: an
unsupported leaf operation (throwInvalidOperation) or an empty group
(OBX_VERIFY_STATE at line 1249). The group case transcribes QCGroup::applyTo
(lines 1247-1263): one child is applied directly propagating isRoot; two or
more children are each applied with isRoot false, then the handles are
combined with obx_qb_any (OR) or obx_qb_all (AND) unless the group is a
root AND group, which returns 0 without any combinator call. -/
def applyTo : Cond → Bool → Nat → Option (Nat × Nat × List NativeCall)
  | .leaf k op, _, n =>
      if leafSupported k op then some (n + 1, n + 1, [.condLeaf k op])
      else none
  | .group isOr cs, isRoot, n =>
      match cs with
      | .nil => none
      | .cons c .nil => applyTo c isRoot n
      | .cons c1 (.cons c2 rest) => do
          let (ids, n1, tr) ← applyToList (.cons c1 (.cons c2 rest)) n
          if isRoot && !isOr then some (0, n1, tr)
          else if isOr then some (n1 + 1, n1 + 1, tr ++ [.anyCall ids])
          else some (n1 + 1, n1 + 1, tr ++ [.allCall ids])

/-- The children loop of QCGroup::applyTo (lines 1253-1255): applies every
child with isRoot false, in order, collecting the returned handles. -/
def applyToList : CondList → Nat → Option (List Nat × Nat × List NativeCall)
  | .nil, n => some ([], n, [])
  | .cons c cs, n => do
      let (i, n1, t1) ← applyTo c false n
      let (ids, n2, t2) ← applyToList cs n1
      some (i :: ids, n2, t1 ++ t2)

end

/-! ## Errors of the binding layer -/

/-- The error taxonomy the binding can surface for the operations modelled
here: IllegalStateException from OBX_VERIFY_STATE / throwIllegalStateException
(objectbox.hpp lines 106-110, 177-181), an engine error with its original
obx_err code preserved (checkErrOrThrow, line 230, via throwLastError), and
an engine failure reported through a null pointer, whose code the binding
reads back from obx_last_error_code (checkPtrOrThrow, line 240). -/
inductive Err where
  | stateErr : Err
  | engineErr : Int → Err
  | engineFailure : Err
deriving DecidableEq, Repr

/-! ## Transaction -/

/-- Transcribes enum class TxMode. -/
inductive TxMode where
  | read
  | write
deriving DecidableEq, Repr

/-- Engine transaction primitives the Transaction wrapper invokes:
obx_txn_write / obx_txn_read (recorded with the requested mode),
obx_txn_success on a non-null handle, and obx_txn_close on the stored
handle, which may be null. -/
inductive TxCall where
  | txnOpen : TxMode → TxCall
  | txnSuccess : Nat → TxCall
  | txnClose : Option Nat → TxCall
deriving DecidableEq, Repr

/-- Transcribes class Transaction (objectbox.hpp lines 920-965): the mode
and the stored native handle cTxn_, where none models a null OBX_txn*. -/
structure Transaction where
  mode : TxMode
  cTxn : Option Nat
deriving DecidableEq, Repr

/-- Transcribes the Transaction constructor (lines 969-972): it invokes
obx_txn_write or obx_txn_read according to the mode, stores the returned
handle and throws via checkPtrOrThrow when the engine returned null. The
handle the engine returns is the oracle input engineHandle. The constructor
reads no ambient per-thread state: its behavior does not depend on whether
another Transaction is already active on the calling thread. -/
def mkTransaction (mode : TxMode) (engineHandle : Option Nat) :
    Except Err Transaction × List TxCall :=
  (match engineHandle with
   | some h => .ok ⟨mode, some h⟩
   | none => .error .engineFailure,
   [.txnOpen mode])

/-- Opening a scope while the given ambient scope is active on the calling
thread. The Transaction constructor takes only the store and the mode and
performs no ambient-scope lookup, so this is the very same code path as a
top-level open; the ambient argument is unused by construction. -/
def openNestedScope (_ambient : Transaction) (mode : TxMode)
    (engineHandle : Option Nat) : Except Err Transaction × List TxCall :=
  mkTransaction mode engineHandle

/-- Transcribes Transaction::isActive (line 940). -/
def Transaction.isActive (t : Transaction) : Bool := t.cTxn.isSome

/-- Transcribes Transaction::cPtr (lines 980-983): OBX_VERIFY_STATE on the
stored handle, then returns it. -/
def Transaction.cPtr (t : Transaction) : Except Err Nat :=
  match t.cTxn with
  | some h => .ok h
  | none => .error .stateErr

/-- Transcribes Transaction::success (lines 985-990): reads cTxn_, throws an
IllegalStateException when it is null (before any engine call), otherwise
nulls cTxn_ and only then invokes obx_txn_success on the saved handle. The
error result carries the empty call list: the commit primitive is not
invoked on the failure path. A failing obx_txn_success would additionally
throw via checkErrOrThrow after the call; that error path does not affect
the stored (already nulled) handle, so it is not modelled separately. -/
def Transaction.success (t : Transaction) :
    Except Err Transaction × List TxCall :=
  match t.cTxn with
  | none => (.error .stateErr, [])
  | some h => (.ok { t with cTxn := none }, [.txnSuccess h])

/-- Transcribes Transaction::closeNoThrow (lines 992-996): saves cTxn_,
nulls it, and passes the saved value - null or not - to obx_txn_close.
Transaction::close (line 998) and the destructor (line 937) both reduce to
this same function (close additionally rethrows the engine return code,
which does not change the stored state or the calls made). -/
def Transaction.closeNoThrow (t : Transaction) : Transaction × List TxCall :=
  ({ t with cTxn := none }, [.txnClose t.cTxn])

/-- Transcribes the Transaction move constructor (line 931): the target
takes over the mode and handle, the source handle is nulled. Returns
(target, moved-from source). -/
def Transaction.moveCtor (source : Transaction) : Transaction × Transaction :=
  (⟨source.mode, source.cTxn⟩, { source with cTxn := none })

/-- The operations a caller can perform on one Transaction object after
construction: success(), close()/closeNoThrow(), or destruction. -/
inductive TxAction where
  | succeed
  | closeTx
  | destroy
deriving DecidableEq, Repr

/-- Runs a sequence of caller operations on a Transaction object,
accumulating every engine call made. A success() precondition failure
throws before touching the state, so the object is unchanged there. -/
def runTx : Transaction → List TxAction → Transaction × List TxCall
  | t, [] => (t, [])
  | t, a :: rest =>
      let step : Transaction × List TxCall :=
        match a with
        | .succeed =>
            match t.success with
            | (.ok t', cs) => (t', cs)
            | (.error _, cs) => (t, cs)
        | .closeTx => t.closeNoThrow
        | .destroy => t.closeNoThrow
      let next := runTx step.1 rest
      (next.1, step.2 ++ next.2)

/-- An engine call that hands a non-null transaction handle back to the
engine: obx_txn_success always does, obx_txn_close only when the passed
handle is non-null. -/
def releasesHandle : TxCall → Bool
  | .txnSuccess _ => true
  | .txnClose (some _) => true
  | _ => false

/-! ## QueryBuilder and Query execution -/

/-- The fields of QueryBuilderBase relevant here (objectbox.hpp lines
1909-1914): the native builder handle and the isRoot flag. -/
structure QueryBuilderB where
  cQueryBuilder : Option Nat
  isRoot : Bool
deriving DecidableEq, Repr

/-- Engine primitives invoked by buildBase/build: obx_query on the builder
handle (inside the QueryBase constructor, line 2175). -/
inductive QbCall where
  | createQuery : Option Nat → QbCall
deriving DecidableEq, Repr

/-- Transcribes QueryBuilderBase::linkedQB / QueryBuilder::linkedQB (lines
2157-2163): checkPtrOrThrow on the native sub-builder handle returned by the
link/backlink primitive, then a QueryBuilder wrapping it with isRoot false. -/
def linkedQB (cqb : Option Nat) : Except Err QueryBuilderB :=
  match cqb with
  | some h => .ok ⟨some h, false⟩
  | none => .error .engineFailure

/-- Transcribes QueryBuilderBase::buildBase (lines 2531-2534) and the
identical QueryBuilder::build (lines 2538-2541): OBX_VERIFY_STATE(isRoot_)
throws on a non-root builder before any engine call; on a root builder the
QueryBase constructor invokes obx_query and checkPtrOrThrow checks the
returned query handle, given here by the oracle input engineQuery. -/
def buildBase (qb : QueryBuilderB) (engineQuery : Option Nat) :
    Except Err Nat × List QbCall :=
  if qb.isRoot then
    (match engineQuery with
     | some q => .ok q
     | none => .error .engineFailure,
     [.createQuery qb.cQueryBuilder])
  else (.error .stateErr, [])

/-- Transcribes QueryBase::visit (lines 2242-2246): obx_query_visit feeds
rows to the callback and returns an obx_err, which checkErrOrThrow turns
into an exception preserving the code. The engine outcome is the oracle
input engineErr (0 is OBX_SUCCESS). -/
def QueryBase.visit (engineErr : Int) : Except Err Unit :=
  if engineErr = 0 then .ok () else .error (.engineErr engineErr)

/-- Transcribes Query::find (lines 2311-2317): a CollectingVisitor gathers
the rows obx_query_visit delivers (oracle input engineRows, the rows
delivered before the engine stopped or failed), and the obx_err returned by
obx_query_visit (oracle input engineErr) is discarded - the statement result
is unused - so the collected vector is returned unconditionally. -/
def Query.find (engineRows : List Nat) (_engineErr : Int) : List Nat :=
  engineRows

/-- Transcribes Query::count via QueryBase::count (lines 2257-2261):
obx_query_count writes the count and returns an obx_err checked by
checkErrOrThrow. -/
def QueryBase.count (engineCount : Nat) (engineErr : Int) : Except Err Nat :=
  if engineErr = 0 then .ok engineCount else .error (.engineErr engineErr)

/-! ## Theorems: condition algebra -/

/-- The two chain step functions agree on every accumulated value: on a
group accumulator, the rvalue friend operators either delegate to the
and_/or_ of the copying path outright or perform the same children push in
place. -/
theorem stepMove_eq_stepCopy (acc : Cond) (pc : CombOp × Cond) :
    stepMove acc pc = stepCopy acc pc := by
  cases acc with
  | leaf k op => rfl
  | group isOr cs =>
      obtain ⟨op, c⟩ := pc
      cases op <;> cases isOr <;>
        simp [stepMove, stepCopy, moveAnd, moveOr, condAnd, condOr]

/-- Claim C2: and_ (resp. or_) on a left operand that is already an AND
(resp. OR) group extends that group with the right operand as one more
child, kept flat; on a leaf or a group of the opposite combinator it wraps
both operands into a fresh two-child group; consequently a chain
a and b and c with a not itself an AND group yields the single flat AND
group with children a, b, c. -/
theorem and_or_merge_wrap :
    (∀ cs r, condAnd (.group false cs) r = .group false (cs.push r))
    ∧ (∀ l r, isAndGroup l = false → condAnd l r = .group false (.pair l r))
    ∧ (∀ cs r, condOr (.group true cs) r = .group true (cs.push r))
    ∧ (∀ l r, isOrGroup l = false → condOr l r = .group true (.pair l r))
    ∧ (∀ a b c, isAndGroup a = false →
        condAnd (condAnd a b) c
          = .group false (.cons a (.cons b (.cons c .nil)))) := by
  have handw : ∀ l r, isAndGroup l = false →
      condAnd l r = .group false (.pair l r) := by
    intro l r hl
    cases l with
    | leaf k op => rfl
    | group isOr cs =>
        cases isOr with
        | false => simp [isAndGroup] at hl
        | true => rfl
  refine ⟨fun cs r => rfl, handw, fun cs r => rfl, ?_, ?_⟩
  · intro l r hl
    cases l with
    | leaf k op => rfl
    | group isOr cs =>
        cases isOr with
        | false => rfl
        | true => simp [isOrGroup] at hl
  · intro a b c ha
    rw [handw a b ha]
    rfl

/-- Witness for and_or_merge_wrap at concrete leaves: an equals leaf
combined with two further leaves by and_ gives one flat three-child AND
group. -/
theorem and_or_merge_wrap_witness :
    condAnd (condAnd (.leaf .qcInt64 .Equal) (.leaf .qcPlain .Null))
        (.leaf .qcDouble .Less)
      = .group false (.cons (.leaf .qcInt64 .Equal)
          (.cons (.leaf .qcPlain .Null)
            (.cons (.leaf .qcDouble .Less) .nil))) :=
  and_or_merge_wrap.2.2.2.2 (.leaf .qcInt64 .Equal) (.leaf .qcPlain .Null)
    (.leaf .qcDouble .Less) rfl

/-- Claim C3: for every combine chain evaluated left to right, the
move-optimized path (rvalue operators pushing into the left group in place)
produces a condition tree structurally identical to the copying path
(and_/or_ with copy-and-push) on the same input sequence. -/
theorem chainMove_eq_chainCopy (first : Cond) (rest : List (CombOp × Cond)) :
    chainMove first rest = chainCopy first rest := by
  unfold chainMove chainCopy
  induction rest generalizing first with
  | nil => rfl
  | cons pc rest ih => simp [List.foldl, stepMove_eq_stepCopy, ih]

/-! ## Theorems: applyTo lowering -/

/-- Claim C1: applyTo lowers a condition tree as follows. A group with one
child applies that child directly, propagating the isRoot flag. The
children loop applies each child with isRoot false, collecting the returned
native handles. A group with two or more children then combines those
handles with the any combinator (OR group) or the all combinator (AND
group, non-root), each returning the fresh handle of the combinator call -
except an AND group applied at isRoot true, which invokes no combinator
primitive (the trace is exactly the concatenated children trace) and
returns the zero handle. -/
theorem applyTo_lowering :
    (∀ c isRoot n isOr,
        applyTo (.group isOr (.cons c .nil)) isRoot n = applyTo c isRoot n)
    ∧ (∀ c cs n,
        applyToList (.cons c cs) n = do
          let (i, n1, t1) ← applyTo c false n
          let (ids, n2, t2) ← applyToList cs n1
          some (i :: ids, n2, t1 ++ t2))
    ∧ (∀ cs ids n n1 tr, 2 ≤ cs.length →
        applyToList cs n = some (ids, n1, tr) →
        applyTo (.group false cs) true n = some (0, n1, tr)
        ∧ applyTo (.group true cs) true n
            = some (n1 + 1, n1 + 1, tr ++ [.anyCall ids])
        ∧ applyTo (.group true cs) false n
            = some (n1 + 1, n1 + 1, tr ++ [.anyCall ids])
        ∧ applyTo (.group false cs) false n
            = some (n1 + 1, n1 + 1, tr ++ [.allCall ids])) := by
  refine ⟨fun c isRoot n isOr => rfl, fun c cs n => rfl, ?_⟩
  intro cs ids n n1 tr hlen happ
  match cs with
  | .nil => simp [CondList.length] at hlen
  | .cons c .nil => simp [CondList.length] at hlen
  | .cons c1 (.cons c2 rest) =>
      refine ⟨?_, ?_, ?_, ?_⟩ <;> simp [applyTo, happ]

/-- Witness for applyTo_lowering: a root AND group of two supported leaves
emits exactly the two leaf primitives, no combinator, and returns the zero
handle; the same group as an OR group emits the any combinator over the two
fresh handles. -/
theorem applyTo_lowering_witness :
    applyTo (.group false (.cons (.leaf .qcInt64 .Equal)
        (.cons (.leaf .qcPlain .Null) .nil))) true 0
      = some (0, 2, [.condLeaf .qcInt64 .Equal, .condLeaf .qcPlain .Null])
    ∧ applyTo (.group true (.cons (.leaf .qcInt64 .Equal)
        (.cons (.leaf .qcPlain .Null) .nil))) true 0
      = some (3, 3, [.condLeaf .qcInt64 .Equal, .condLeaf .qcPlain .Null,
          .anyCall [1, 2]]) := by
  have h := applyTo_lowering.2.2
    (.cons (.leaf .qcInt64 .Equal) (.cons (.leaf .qcPlain .Null) .nil))
    [1, 2] 0 2
    [.condLeaf .qcInt64 .Equal, .condLeaf .qcPlain .Null]
    (by decide) rfl
  exact ⟨h.1, h.2.1⟩

/-! ## Theorems: typed factories never reach the invalid-operation
backstop -/

/-- Claim C9: every (container, operator) pair the public typed factories
can construct has a native primitive branch in the corresponding applyTo
dispatch, so lowering such a leaf always succeeds with its single leaf
primitive call and the throwInvalidOperation backstop is unreachable. -/
theorem factories_never_invalid (k : LeafKind) (op : QueryOp)
    (isRoot : Bool) (n : Nat) (h : factoryProducible k op = true) :
    applyTo (.leaf k op) isRoot n = some (n + 1, n + 1, [.condLeaf k op]) := by
  have key : ∀ k op, factoryProducible k op = true →
      leafSupported k op = true := by decide
  simp [applyTo, key k op h]

/-- Witness for factories_never_invalid at the integer equals factory. -/
theorem factories_never_invalid_witness :
    applyTo (.leaf .qcInt64 .Equal) true 0
      = some (1, 1, [.condLeaf .qcInt64 .Equal]) :=
  factories_never_invalid .qcInt64 .Equal true 0 (by decide)

/-! ## Theorems: Transaction lifecycle -/

/-- From a Transaction whose handle is already null, no further sequence of
success/close/destroy operations hands a non-null handle to the engine, and
the handle stays null. -/
theorem runTx_closed (acts : List TxAction) :
    ∀ t : Transaction, t.cTxn = none →
      (runTx t acts).2.filter releasesHandle = []
      ∧ (runTx t acts).1.cTxn = none := by
  induction acts with
  | nil => intro t ht; simp [runTx, ht]
  | cons a rest ih =>
      intro t ht
      cases a with
      | succeed =>
          have := ih t ht
          simp [runTx, Transaction.success, ht, this.1, this.2]
      | closeTx =>
          have := ih { t with cTxn := none } rfl
          simp [runTx, Transaction.closeNoThrow, ht, releasesHandle,
            this.1, this.2]
      | destroy =>
          have := ih { t with cTxn := none } rfl
          simp [runTx, Transaction.closeNoThrow, ht, releasesHandle,
            this.1, this.2]

/-- Claim C4: close is idempotent and the native handle is released to the
engine at most once. Any single success/close/destroy on an open
Transaction nulls the stored handle; a close on an already-closed
Transaction leaves it unchanged and passes the null handle to
obx_txn_close; and across any operation sequence on a Transaction opened
with handle h, at most one engine call carries a non-null handle. -/
theorem transaction_single_release :
    (∀ mode h a, ((runTx ⟨mode, some h⟩ [a]).1).cTxn = none)
    ∧ (∀ t : Transaction, t.cTxn = none →
        t.closeNoThrow = (t, [.txnClose none]))
    ∧ (∀ mode h acts,
        ((runTx ⟨mode, some h⟩ acts).2.filter releasesHandle).length ≤ 1) := by
  refine ⟨?_, ?_, ?_⟩
  · intro mode h a
    cases a <;> simp [runTx, Transaction.success, Transaction.closeNoThrow]
  · intro t ht
    cases t
    simp at ht
    simp [Transaction.closeNoThrow, ht]
  · intro mode h acts
    cases acts with
    | nil => simp [runTx]
    | cons a rest =>
        have hclosed := runTx_closed rest ⟨mode, none⟩ rfl
        cases a with
        | succeed =>
            simp [runTx, Transaction.success, releasesHandle, hclosed.1]
        | closeTx =>
            simp [runTx, Transaction.closeNoThrow, releasesHandle, hclosed.1]
        | destroy =>
            simp [runTx, Transaction.closeNoThrow, releasesHandle, hclosed.1]

/-- Witness for transaction_single_release: a write transaction closed
twice and then destroyed releases its handle exactly once; a second close
on the closed object passes the null handle to the engine. -/
theorem transaction_single_release_witness :
    ((runTx ⟨.write, some 1⟩ [.succeed]).1).cTxn = none
    ∧ Transaction.closeNoThrow ⟨.write, none⟩
        = (⟨.write, none⟩, [.txnClose none])
    ∧ ((runTx ⟨.write, some 1⟩
        [.closeTx, .closeTx, .destroy]).2.filter releasesHandle).length ≤ 1 :=
  ⟨transaction_single_release.1 .write 1 .succeed,
   transaction_single_release.2.1 ⟨.write, none⟩ rfl,
   transaction_single_release.2.2 .write 1 [.closeTx, .closeTx, .destroy]⟩

/-- Claim C5: success on a Transaction whose scope already ended (by a
previous success, a close, or being moved from - all of which null the
stored handle) throws an IllegalStateException and performs no engine call,
in particular it never reaches obx_txn_success; and after any successful
success call, a second success on the resulting object does exactly that. -/
theorem success_twice_state_error :
    (∀ t : Transaction, t.cTxn = none → t.success = (.error .stateErr, []))
    ∧ (∀ (t t' : Transaction) cs, t.success = (.ok t', cs) →
        t'.success = (.error .stateErr, [])) := by
  constructor
  · intro t ht; simp [Transaction.success, ht]
  · intro t t' cs h
    cases htc : t.cTxn with
    | none => simp [Transaction.success, htc] at h
    | some x =>
        simp [Transaction.success, htc] at h
        rw [← h.1]
        simp [Transaction.success]

/-- Witness for success_twice_state_error: success on a fresh write
transaction succeeds once, and the second call raises the state error
without invoking the commit primitive. -/
theorem success_twice_state_error_witness :
    Transaction.success ⟨.write, none⟩ = (.error .stateErr, [])
    ∧ Transaction.success ⟨.write, none⟩ = (.error .stateErr, []) :=
  ⟨success_twice_state_error.1 ⟨.write, none⟩ rfl,
   success_twice_state_error.2 ⟨.write, some 1⟩ ⟨.write, none⟩
     [.txnSuccess 1] rfl⟩

/-- Claim C10: the move constructor transfers the native handle to the
target and nulls it in the source; afterwards the moved-from object is
inactive, its cPtr and success raise the state error (success making no
engine call), its close passes the null handle to the engine, and
destroying both objects releases handle h exactly once. -/
theorem move_transfers_ownership (mode : TxMode) (h : Nat) :
    (Transaction.moveCtor ⟨mode, some h⟩).1.cTxn = some h
    ∧ (Transaction.moveCtor ⟨mode, some h⟩).2.cTxn = none
    ∧ (Transaction.moveCtor ⟨mode, some h⟩).2.isActive = false
    ∧ (Transaction.moveCtor ⟨mode, some h⟩).2.cPtr = .error .stateErr
    ∧ (Transaction.moveCtor ⟨mode, some h⟩).2.success = (.error .stateErr, [])
    ∧ (Transaction.moveCtor ⟨mode, some h⟩).2.closeNoThrow
        = ((Transaction.moveCtor ⟨mode, some h⟩).2, [.txnClose none])
    ∧ (((Transaction.moveCtor ⟨mode, some h⟩).1.closeNoThrow.2
        ++ (Transaction.moveCtor ⟨mode, some h⟩).2.closeNoThrow.2).filter
          releasesHandle) = [.txnClose (some h)] := by
  refine ⟨rfl, rfl, rfl, rfl, rfl, rfl, ?_⟩
  simp [Transaction.moveCtor, Transaction.closeNoThrow, releasesHandle]

/-! ## Theorems: opening transaction scopes -/

/-- Counterexample to claim C6 as stated: opening a transaction scope while
an ambient scope (here holding native handle 1) is active on the calling
context still invokes the engine open-transaction primitive - the emitted
call list is the nonempty [txnOpen write], not the empty list the claim
requires - and the new scope stores the fresh handle 2 the engine returned,
not the ambient handle 1. -/
theorem nested_open_invokes_engine :
    (openNestedScope ⟨.write, some 1⟩ .write (some 2)).2
        = [TxCall.txnOpen .write]
    ∧ ((openNestedScope ⟨.write, some 1⟩ .write (some 2)).2 = ([] : List TxCall)
        → False)
    ∧ (openNestedScope ⟨.write, some 1⟩ .write (some 2)).1
        = .ok ⟨.write, some 2⟩ := by
  refine ⟨rfl, ?_, rfl⟩
  intro h
  simp [openNestedScope, mkTransaction] at h

/-- Claim C6 as amended: opening a transaction scope always invokes the
engine open-transaction primitive exactly once - also when the calling
context already has an ambient active scope, since the constructor performs
no ambient-scope lookup - and stores whatever handle that call returns;
reuse of the underlying transaction for nested scopes, if any, happens
inside the native engine, not in the binding. -/
theorem open_always_invokes_engine (ambient : Transaction) (mode : TxMode)
    (engineHandle : Option Nat) :
    openNestedScope ambient mode engineHandle = mkTransaction mode engineHandle
    ∧ (mkTransaction mode engineHandle).2 = [.txnOpen mode] :=
  ⟨rfl, rfl⟩

/-! ## Theorems: query build and execution -/

/-- Claim C8: buildBase (and the identical build) succeeds only on a root
builder: a builder produced by a link/backlink traversal carries isRoot
false, and buildBase on it raises the state error without invoking
obx_query, while on a root builder it invokes obx_query and returns the
compiled query handle. -/
theorem build_requires_root :
    (∀ h, linkedQB (some h) = .ok ⟨some h, false⟩)
    ∧ (∀ h engineQuery,
        buildBase ⟨some h, false⟩ engineQuery = (.error .stateErr, []))
    ∧ (∀ qb : QueryBuilderB, qb.isRoot = true → ∀ q,
        buildBase qb (some q) = (.ok q, [.createQuery qb.cQueryBuilder])) := by
  refine ⟨fun h => rfl, fun h engineQuery => rfl, ?_⟩
  intro qb hroot q
  simp [buildBase, hroot]

/-- Witness for build_requires_root: the sub-builder made from native
handle 5 cannot be built, while the root builder on the same handle
compiles to the query handle 7 the engine returns. -/
theorem build_requires_root_witness :
    linkedQB (some 5) = .ok ⟨some 5, false⟩
    ∧ buildBase ⟨some 5, false⟩ (some 7) = (.error .stateErr, [])
    ∧ buildBase ⟨some 5, true⟩ (some 7) = (.ok 7, [.createQuery (some 5)]) :=
  ⟨build_requires_root.1 5,
   build_requires_root.2.1 5 (some 7),
   build_requires_root.2.2 ⟨some 5, true⟩ rfl 7⟩

/-- Claim C7 fails on Query::find: when obx_query_visit reports engine
error 9, find returns the rows collected so far (here none) as an ordinary
success and surfaces no error at all, while QueryBase::visit on the very
same engine outcome propagates the error with its code 9 preserved; find
discards the engine error unconditionally. -/
theorem find_swallows_engine_error :
    Query.find [] 9 = ([] : List Nat)
    ∧ QueryBase.visit 9 = .error (.engineErr 9)
    ∧ (∀ rows engineErr, Query.find rows engineErr = rows) :=
  ⟨rfl, rfl, fun _ _ => rfl⟩

end Obx
